import Mathlib

/-!
Verification of the `django-newsfeed` subscriber lifecycle and
query/filter layer, shallowly embedded from `newsfeed/models.py`.
Times (datetimes) are modelled as integer timestamps in seconds;
`timedelta(days=n)` is `n * 86400` and `timedelta(minutes=5)` is `5 * 60`.
-/

namespace Newsfeed

/-- A subscriber row, from `Subscriber` in `newsfeed/models.py`
(the fields the lifecycle methods touch). `verification_sent_date`
is nullable, hence an `Option`. -/
structure Subscriber where
  email_address : String
  token : String
  verified : Bool
  subscribed : Bool
  verification_sent_date : Option Int
  deriving Repr, DecidableEq

/-- Embeds `Subscriber.token_expired`: true when no verification timestamp is
recorded, or when `verification_sent_date + timedelta(days=expireDays)`
is at or before `now`. `expireDays` stands for the setting
`SUBSCRIPTION_EMAIL_CONFIRMATION_EXPIRE_DAYS`. -/
def token_expired (s : Subscriber) (expireDays : Nat) (now : Int) : Bool :=
  match s.verification_sent_date with
  | none => true
  | some sentDate => decide (sentDate + (expireDays : Int) * 86400 ≤ now)

/-- Embeds `Subscriber.verify`: when the token is not expired, set both
`verified` and `subscribed` and save, returning the success signal
(`True` in Python, `none` otherwise — modelled as a `Bool`).
The returned subscriber is the persisted row. -/
def verify (s : Subscriber) (expireDays : Nat) (now : Int) : Subscriber × Bool :=
  if ¬ token_expired s expireDays now then
    ({ s with verified := true, subscribed := true }, true)
  else
    (s, false)

/-- Embeds `Subscriber.unsubscribe`: when currently subscribed, clear both
`subscribed` and `verified` and save, returning the success signal. -/
def unsubscribe (s : Subscriber) : Subscriber × Bool :=
  if s.subscribed then
    ({ s with subscribed := false, verified := false }, true)
  else
    (s, false)

/-- The redraw loop inside `Subscriber.reset_token`:
`while self.__class__.objects.filter(token=unique_token).exists():
unique_token = str(uuid.uuid4())`. The successive `str(uuid.uuid4())`
draws are the stream `draws`; `existing` is the set of tokens in the
`Subscriber` table. `fuel` bounds the number of draws inspected, with
`none` modelling a run that has not terminated within the bound. -/
def findUniqueToken (existing : List String) (draws : Nat → String) :
    Nat → Nat → Option String
  | 0, _ => none
  | fuel + 1, i =>
    if existing.contains (draws i) then
      findUniqueToken existing draws fuel (i + 1)
    else
      some (draws i)

/-- Embeds `Subscriber.reset_token`: draw random tokens until one is free of
collision with every token in the table, store it in `token` and save.
The returned subscriber is the persisted row; `none` models a
non-terminating redraw loop. -/
def reset_token (s : Subscriber) (existing : List String) (draws : Nat → String)
    (fuel : Nat) : Option Subscriber :=
  (findUniqueToken existing draws fuel 0).map fun t => { s with token := t }

/-- Modelled from the spec: `Subscriber.get_verification_url` resolves the
`newsfeed:newsletter_subscribe_confirm` route with the token of the subscriber as
the URL keyword argument; the URL configuration itself is not part of the
sources, so the route is modelled as a fixed path with the token spliced in
("a verification URL built from the token"). -/
def get_verification_url (token : String) : String :=
  "/newsletter/subscribe/confirm/" ++ token ++ "/"

/-- One outbound verification email, as handed to
`send_subscription_verification_email(verification_url, to_email)`. -/
structure EmailSent where
  verification_url : String
  to_email : String
  deriving Repr, DecidableEq

/-- The guard that opens `Subscriber.send_verification_email`: the
verification date is set and is at or after `now - timedelta(minutes=5)`. -/
def throttled (s : Subscriber) (now : Int) : Bool :=
  match s.verification_sent_date with
  | none => false
  | some sentDate => decide (sentDate ≥ now - 5 * 60)

/-- Embeds `Subscriber.send_verification_email(created)`: return at once when a
verification email went out within the last five minutes; otherwise rotate
the token via `reset_token` unless the row was just `created`, stamp
`verification_sent_date` with the current time, save, and hand the
verification URL and address to the email transport. The outer `Option`
models the rotation loop failing to terminate; the inner `Option EmailSent`
is the email dispatched, `none` when throttled. -/
def send_verification_email (s : Subscriber) (created : Bool) (now : Int)
    (existing : List String) (draws : Nat → String) (fuel : Nat) :
    Option (Subscriber × Option EmailSent) :=
  if throttled s now then
    some (s, none)
  else
    (if created then some s else reset_token s existing draws fuel).map
      fun s1 =>
        let s2 := { s1 with verification_sent_date := some now }
        (s2, some ⟨get_verification_url s2.token, s2.email_address⟩)

/-- An issue row, from `Issue` in `newsfeed/models.py`
(the fields the publication predicate touches). -/
structure Issue where
  title : String
  issue_number : Nat
  publish_date : Int
  is_draft : Bool
  deriving Repr, DecidableEq

/-- Embeds `Issue.is_published`: `self.is_draft == False and self.publish_date <=
timezone.now()`. -/
def is_published (i : Issue) (now : Int) : Bool :=
  i.is_draft == false && decide (i.publish_date ≤ now)

/-- Modelled from the spec: the published-issues query of the query/filter
layer (`IssueQuerySet`, not among the sources): `is_draft = false AND
publish_date ≤ now`, over the issues currently in the table. -/
def publishedIssues (issues : List Issue) (now : Int) : List Issue :=
  issues.filter fun i => !i.is_draft && decide (i.publish_date ≤ now)

/-- A post row, from `Post` in `newsfeed/models.py`
(the fields the visibility query and `Meta.ordering` touch). -/
structure Post where
  title : String
  source_url : String
  is_visible : Bool
  order : Nat
  created_at : Int
  deriving Repr, DecidableEq

/-- Embeds `Post.Meta.ordering` (order, then created_at reversed): `order` ascending,
ties broken by `created_at` descending. -/
def postLE (a b : Post) : Bool :=
  a.order < b.order || (a.order == b.order && decide (b.created_at ≤ a.created_at))

/-- Modelled from the spec: the visible-posts-for-issue query
(`PostQuerySet`, not among the sources): `is_visible = true`, returned in
the `Meta.ordering` of the model (`order` asc, then `created_at` desc). -/
def visiblePosts (posts : List Post) : List Post :=
  (posts.filter fun p => p.is_visible).mergeSort postLE

/-- Number of emails dispatched by one `send_verification_email` call. -/
def emailCount : Option EmailSent → Nat
  | none => 0
  | some _ => 1

theorem findUniqueToken_not_mem (existing : List String) (draws : Nat → String) :
    ∀ fuel i t, findUniqueToken existing draws fuel i = some t → t ∉ existing := by
  intro fuel
  induction fuel with
  | zero =>
    intro i t h
    simp [findUniqueToken] at h
  | succ n ih =>
    intro i t h
    by_cases hc : existing.contains (draws i)
    · rw [findUniqueToken, if_pos hc] at h
      exact ih _ _ h
    · rw [findUniqueToken, if_neg hc] at h
      cases h
      simpa using hc

theorem reset_token_spec (s : Subscriber) (existing : List String)
    (draws : Nat → String) (fuel : Nat) (s' : Subscriber)
    (h : reset_token s existing draws fuel = some s') :
    s'.token ∉ existing ∧ s'.email_address = s.email_address ∧
    s'.verified = s.verified ∧ s'.subscribed = s.subscribed ∧
    s'.verification_sent_date = s.verification_sent_date := by
  unfold reset_token at h
  rcases Option.map_eq_some'.mp h with ⟨t, hft, hs⟩
  cases hs
  exact ⟨findUniqueToken_not_mem _ _ _ _ _ hft, rfl, rfl, rfl, rfl⟩

theorem send_throttled_eq (s : Subscriber) (created : Bool) (now : Int)
    (existing : List String) (draws : Nat → String) (fuel : Nat)
    (h : throttled s now = true) :
    send_verification_email s created now existing draws fuel = some (s, none) := by
  simp [send_verification_email, h]

/-- C1: `verify` returns the success signal iff `token_expired` is false at
the time of the call; on success both `verified` and `subscribed` are true
afterwards; when the token is expired `verify` leaves the state unchanged
(and signals failure). -/
theorem verify_succeeds_iff_not_expired (s : Subscriber) (e : Nat) (now : Int) :
    ((verify s e now).2 = true ↔ token_expired s e now = false) ∧
    ((verify s e now).2 = true →
      (verify s e now).1.verified = true ∧ (verify s e now).1.subscribed = true) ∧
    (token_expired s e now = true → verify s e now = (s, false)) := by
  by_cases h : token_expired s e now <;> simp [verify, h]

theorem verify_succeeds_iff_not_expired_witness :
    (verify ⟨"a@b.c", "tok", false, false, some 0⟩ 1 10).2 = true ∧
    (verify ⟨"a@b.c", "tok", false, false, some 0⟩ 1 10).1.verified = true ∧
    (verify ⟨"a@b.c", "tok", false, false, none⟩ 1 10) =
      (⟨"a@b.c", "tok", false, false, none⟩, false) := by
  refine ⟨?_, ?_, ?_⟩
  · exact (verify_succeeds_iff_not_expired ⟨"a@b.c", "tok", false, false, some 0⟩
      1 10).1.mpr (by decide)
  · exact ((verify_succeeds_iff_not_expired ⟨"a@b.c", "tok", false, false, some 0⟩
      1 10).2.1 (by decide)).1
  · exact (verify_succeeds_iff_not_expired ⟨"a@b.c", "tok", false, false, none⟩
      1 10).2.2 (by decide)

/-- C2: `unsubscribe` changes state only when `subscribed` was true, in
which case it clears both `subscribed` and `verified` together and signals
success; when `subscribed` was already false it leaves the state entirely
unchanged. -/
theorem unsubscribe_clears_iff_subscribed (s : Subscriber) :
    (s.subscribed = true →
      unsubscribe s = ({ s with subscribed := false, verified := false }, true)) ∧
    (s.subscribed = false → unsubscribe s = (s, false)) := by
  by_cases h : s.subscribed <;> simp [unsubscribe, h]

theorem unsubscribe_clears_iff_subscribed_witness :
    unsubscribe ⟨"a@b.c", "tok", true, true, none⟩ =
      (⟨"a@b.c", "tok", false, false, none⟩, true) ∧
    unsubscribe ⟨"a@b.c", "tok", false, false, none⟩ =
      (⟨"a@b.c", "tok", false, false, none⟩, false) :=
  ⟨(unsubscribe_clears_iff_subscribed ⟨"a@b.c", "tok", true, true, none⟩).1 rfl,
   (unsubscribe_clears_iff_subscribed ⟨"a@b.c", "tok", false, false, none⟩).2 rfl⟩

/-- C5: `token_expired` is true iff no `verification_sent_date` is
recorded, or the recorded date plus the configured expiry period in days is
at or before the current time. -/
theorem token_expired_iff (s : Subscriber) (e : Nat) (now : Int) :
    token_expired s e now = true ↔
      s.verification_sent_date = none ∨
      ∃ d, s.verification_sent_date = some d ∧ d + (e : Int) * 86400 ≤ now := by
  cases h : s.verification_sent_date with
  | none => simp [token_expired, h]
  | some d => simp [token_expired, h]

theorem token_expired_iff_witness :
    token_expired ⟨"a@b.c", "tok", false, false, some 0⟩ 1 86400 = true ∧
    token_expired ⟨"a@b.c", "tok", false, false, some 0⟩ 1 86399 = false := by
  constructor
  · exact (token_expired_iff ⟨"a@b.c", "tok", false, false, some 0⟩ 1 86400).mpr
      (Or.inr ⟨0, rfl, by decide⟩)
  · by_contra hc
    have h2 := (token_expired_iff ⟨"a@b.c", "tok", false, false, some 0⟩ 1 86399).mp
      (by revert hc; cases token_expired ⟨"a@b.c", "tok", false, false, some 0⟩ 1 86399 <;> simp)
    rcases h2 with h2 | ⟨d, hd, hle⟩
    · exact Option.noConfusion h2
    · cases hd; omega

/-- C10: neither `verify` nor `unsubscribe` ever modifies `token` or
`email_address`; a successful `verify` keeps the same token, and while the
token remains unexpired `verify` is idempotent: a second call succeeds
again and leaves the state identical to the state after the first call. -/
theorem verify_unsubscribe_frame_idempotent (s : Subscriber) (e : Nat) (n1 n2 : Int) :
    (verify s e n1).1.token = s.token ∧
    (verify s e n1).1.email_address = s.email_address ∧
    (unsubscribe s).1.token = s.token ∧
    (unsubscribe s).1.email_address = s.email_address ∧
    (token_expired s e n1 = false → token_expired s e n2 = false →
      (verify s e n1).2 = true ∧
      verify (verify s e n1).1 e n2 = ((verify s e n1).1, true)) := by
  refine ⟨?_, ?_, ?_, ?_, ?_⟩
  · by_cases h : token_expired s e n1 <;> simp [verify, h]
  · by_cases h : token_expired s e n1 <;> simp [verify, h]
  · by_cases h : s.subscribed <;> simp [unsubscribe, h]
  · by_cases h : s.subscribed <;> simp [unsubscribe, h]
  · intro h1 h2
    have hsame : token_expired { s with verified := true, subscribed := true } e n2 =
        token_expired s e n2 := by
      simp [token_expired]
    simp [verify, h1, h2, hsame]

theorem verify_unsubscribe_frame_idempotent_witness :
    (verify ⟨"a@b.c", "tok", false, false, some 0⟩ 1 10).2 = true ∧
    verify (verify ⟨"a@b.c", "tok", false, false, some 0⟩ 1 10).1 1 20 =
      ((verify ⟨"a@b.c", "tok", false, false, some 0⟩ 1 10).1, true) :=
  (verify_unsubscribe_frame_idempotent ⟨"a@b.c", "tok", false, false, some 0⟩
    1 10 20).2.2.2.2 (by decide) (by decide)

/-- C3: whenever `reset_token` returns, the stored token is distinct from
every token held by an existing subscriber (the draw was repeated until no
collision remained), and no other field of the subscriber changed. -/
theorem reset_token_fresh (s : Subscriber) (existing : List String)
    (draws : Nat → String) (fuel : Nat) (s' : Subscriber)
    (h : reset_token s existing draws fuel = some s') :
    s'.token ∉ existing ∧ s'.email_address = s.email_address ∧
    s'.verified = s.verified ∧ s'.subscribed = s.subscribed ∧
    s'.verification_sent_date = s.verification_sent_date :=
  reset_token_spec s existing draws fuel s' h

theorem reset_token_fresh_witness :
    ("b" : String) ∉ (["a", "c"] : List String) ∧ "a@b.c" = "a@b.c" ∧
    false = false ∧ false = false ∧ (none : Option Int) = none :=
  reset_token_fresh ⟨"a@b.c", "a", false, false, none⟩ ["a", "c"]
    (fun i => if i = 0 then "a" else "b") 2
    ⟨"a@b.c", "b", false, false, none⟩ rfl

/-- C9: a `send_verification_email` call made while `verification_sent_date`
is set and within the last 5 minutes returns with the subscriber exactly
unchanged — no token rotation, no re-stamped date, no save — and dispatches
no email. -/
theorem send_throttled_frame (s : Subscriber) (created : Bool) (now : Int)
    (existing : List String) (draws : Nat → String) (fuel : Nat) (d : Int)
    (hd : s.verification_sent_date = some d) (hrecent : now - 5 * 60 ≤ d) :
    send_verification_email s created now existing draws fuel = some (s, none) := by
  apply send_throttled_eq
  simp [throttled, hd]
  omega

theorem send_throttled_frame_witness :
    send_verification_email ⟨"a@b.c", "tok", false, false, some 900⟩ false 1000
      ["tok"] (fun _ => "fresh") 1 =
      some (⟨"a@b.c", "tok", false, false, some 900⟩, none) :=
  send_throttled_frame ⟨"a@b.c", "tok", false, false, some 900⟩ false 1000
    ["tok"] (fun _ => "fresh") 1 900 rfl (by decide)

/-- C4: a `send_verification_email` call made while `verification_sent_date`
is set and within the last 5 minutes dispatches no email; consequently two
consecutive calls within a 5-minute window dispatch at most one email. -/
theorem send_at_most_one_email_per_window (s s1 s2 : Subscriber)
    (c1 c2 : Bool) (t1 t2 d : Int) (ex1 ex2 : List String)
    (dr1 dr2 : Nat → String) (f1 f2 : Nat) (em1 em2 : Option EmailSent) :
    (s.verification_sent_date = some d → t1 - 5 * 60 ≤ d →
      send_verification_email s c1 t1 ex1 dr1 f1 = some (s, none)) ∧
    (send_verification_email s c1 t1 ex1 dr1 f1 = some (s1, em1) →
      send_verification_email s1 c2 t2 ex2 dr2 f2 = some (s2, em2) →
      t1 ≤ t2 → t2 ≤ t1 + 5 * 60 →
      emailCount em1 + emailCount em2 ≤ 1) := by
  constructor
  · intro hd hrecent
    apply send_throttled_eq
    simp [throttled, hd]
    omega
  · intro h1 h2 hle hwin
    by_cases hth : throttled s t1
    · rw [send_throttled_eq s c1 t1 ex1 dr1 f1 hth] at h1
      obtain ⟨rfl, rfl⟩ : s = s1 ∧ (none : Option EmailSent) = em1 := by
        constructor <;> injection (Option.some.inj h1) with he1 he2
      cases em2 <;> simp [emailCount]
    · rw [send_verification_email, if_neg (by simp [hth])] at h1
      rcases Option.map_eq_some'.mp h1 with ⟨sa, _, heq⟩
      obtain ⟨hs1, hem1⟩ : { sa with verification_sent_date := some t1 } = s1 ∧
          (some ⟨get_verification_url sa.token, sa.email_address⟩ : Option EmailSent)
            = em1 := by
        constructor <;> injection heq with he1 he2
      have hvs : s1.verification_sent_date = some t1 := by
        rw [← hs1]
      have hth2 : throttled s1 t2 = true := by
        simp [throttled, hvs]
        omega
      rw [send_throttled_eq s1 c2 t2 ex2 dr2 f2 hth2] at h2
      obtain ⟨_, rfl⟩ : s1 = s2 ∧ (none : Option EmailSent) = em2 := by
        constructor <;> injection (Option.some.inj h2) with he1 he2
      rw [← hem1]
      simp [emailCount]

theorem send_at_most_one_email_per_window_witness :
    emailCount (some ⟨get_verification_url "tok", "a@b.c"⟩) + emailCount none ≤ 1 := by
  have h := (send_at_most_one_email_per_window
    ⟨"a@b.c", "tok", false, false, none⟩
    ⟨"a@b.c", "tok", false, false, some 1000⟩
    ⟨"a@b.c", "tok", false, false, some 1000⟩
    true true 1000 1100 0 [] [] (fun _ => "x") (fun _ => "x") 1 1
    (some ⟨get_verification_url "tok", "a@b.c"⟩) none).2
  exact h rfl rfl (by decide) (by decide)

/-- C6: an unthrottled `send_verification_email(created)` call rotates the
token via `reset_token` first exactly when `created` is false, stamps
`verification_sent_date` with the current time and persists it, and
dispatches the email to the address of the subscriber with a verification URL
built from the token as it stands after any rotation. -/
theorem send_unthrottled_behavior (s sr : Subscriber) (now : Int)
    (existing : List String) (draws : Nat → String) (fuel : Nat)
    (hth : throttled s now = false) :
    (send_verification_email s true now existing draws fuel =
      some ({ s with verification_sent_date := some now },
            some ⟨get_verification_url s.token, s.email_address⟩)) ∧
    (reset_token s existing draws fuel = some sr →
      send_verification_email s false now existing draws fuel =
        some ({ sr with verification_sent_date := some now },
              some ⟨get_verification_url sr.token, sr.email_address⟩) ∧
      sr.token ∉ existing ∧ sr.email_address = s.email_address) := by
  constructor
  · rw [send_verification_email, if_neg (by simp [hth])]
    rfl
  · intro hr
    refine ⟨?_, (reset_token_spec s existing draws fuel sr hr).1,
      (reset_token_spec s existing draws fuel sr hr).2.1⟩
    rw [send_verification_email, if_neg (by simp [hth]), hr]
    rfl

theorem send_unthrottled_behavior_witness :
    send_verification_email ⟨"a@b.c", "a", false, false, none⟩ false 1000
      ["a", "c"] (fun _ => "b") 1 =
      some (⟨"a@b.c", "b", false, false, some 1000⟩,
            some ⟨get_verification_url "b", "a@b.c"⟩) ∧
    ("b" : String) ∉ (["a", "c"] : List String) ∧ "a@b.c" = "a@b.c" :=
  (send_unthrottled_behavior ⟨"a@b.c", "a", false, false, none⟩
    ⟨"a@b.c", "b", false, false, none⟩ 1000 ["a", "c"] (fun _ => "b") 1
    (by decide)).2 rfl

theorem postLE_trans (a b c : Post) (hab : postLE a b = true)
    (hbc : postLE b c = true) : postLE a c = true := by
  simp [postLE] at hab hbc ⊢
  omega

theorem postLE_total (a b : Post) : (postLE a b || postLE b a) = true := by
  simp [postLE]
  omega

/-- C7: an issue is published iff `is_draft` is false and `publish_date` is
at or before the current time; hence the published-issues list never
contains a draft issue or an issue with a future publish date. -/
theorem is_published_iff_and_list (i : Issue) (issues : List Issue) (now : Int) :
    (is_published i now = true ↔ i.is_draft = false ∧ i.publish_date ≤ now) ∧
    (i ∈ publishedIssues issues now → i.is_draft = false ∧ i.publish_date ≤ now) := by
  constructor
  · simp [is_published]
  · intro h
    rcases List.mem_filter.mp h with ⟨_, hcond⟩
    simpa using hcond

theorem is_published_iff_and_list_witness :
    (⟨"t", 1, 5, false⟩ : Issue).is_draft = false ∧
    (⟨"t", 1, 5, false⟩ : Issue).publish_date ≤ 10 :=
  (is_published_iff_and_list ⟨"t", 1, 5, false⟩ [⟨"t", 1, 5, false⟩] 10).2
    (by decide)

/-- C8: the visible-posts selection holds exactly the posts with
`is_visible = true`, ordered by `order` ascending with ties broken by
`created_at` descending. -/
theorem visiblePosts_spec (p : Post) (posts : List Post) :
    (p ∈ visiblePosts posts ↔ p ∈ posts ∧ p.is_visible = true) ∧
    List.Pairwise (fun a b : Post =>
      a.order < b.order ∨ (a.order = b.order ∧ b.created_at ≤ a.created_at))
      (visiblePosts posts) := by
  constructor
  · simp [visiblePosts, List.mem_mergeSort, List.mem_filter]
  · have hs := List.sorted_mergeSort postLE_trans postLE_total
      (posts.filter fun q => q.is_visible)
    refine hs.imp ?_
    intro a b h
    simpa [postLE] using h

theorem visiblePosts_spec_witness :
    (⟨"p", "u", true, 0, 0⟩ : Post) ∈ visiblePosts [⟨"p", "u", true, 0, 0⟩] :=
  (visiblePosts_spec ⟨"p", "u", true, 0, 0⟩ [⟨"p", "u", true, 0, 0⟩]).1.mpr
    ⟨by decide, rfl⟩

end Newsfeed
